import Mathlib

/-!
Verification of the price-estimation pipeline of the House_price_pridiction
repository against its natural-language specification.

The Python sources are shallowly embedded: machine floats become exact
rationals (`ℚ`), pandas tables become Lean structures over `List ℚ` columns,
and fallible code returns `Except`.  Every definition is translated directly
from the corresponding Python function; the file then proves or refutes the
frozen claims about them.
-/

namespace HousePrice

/-- Whether the first character list is an initial segment of the second. -/
def leadsList : List Char → List Char → Bool
  | [], _ => true
  | _ :: _, [] => false
  | a :: as, b :: bs => a == b && leadsList as bs

/-- Whether the first character list occurs contiguously inside the second. -/
def occursIn (needle : List Char) : List Char → Bool
  | [] => needle.isEmpty
  | b :: rest => leadsList needle (b :: rest) || occursIn needle rest

/-- Python's `needle in haystack` substring test on strings. -/
def pyIn (needle haystack : String) : Bool :=
  occursIn needle.toList haystack.toList

/-! ## Heuristic price-per-sqft fallback (`predict.py`, `predict_single`)

`predict_single` fabricates the `Price_sqft` feature only when the caller
passes `price_sqft=None`.  The fabrication is a base rate chosen by an
if/elif chain over (latitude, longitude) bounding boxes, scaled by a stack
of multiplicative adjustments, then clamped to [4000, 35000]. -/

/-- Base price per sqft from the if/elif chain over latitude/longitude
bounding boxes in `predict_single` (predict.py lines 126-168). -/
def basePrice (latitude longitude : ℚ) : ℚ :=
  -- South Delhi
  if 28.50 ≤ latitude ∧ latitude ≤ 28.60 ∧ 77.15 ≤ longitude ∧ longitude ≤ 77.30 then 16800.0
  -- Central Delhi
  else if 28.60 ≤ latitude ∧ latitude ≤ 28.68 ∧ 77.18 ≤ longitude ∧ longitude ≤ 77.25 then 21000.0
  -- Gurgaon Golf Course Road
  else if 28.40 ≤ latitude ∧ latitude ≤ 28.50 ∧ 77.05 ≤ longitude ∧ longitude ≤ 77.15 then 15400.0
  -- Gurgaon Cyber City
  else if 28.35 ≤ latitude ∧ latitude ≤ 28.45 ∧ 76.95 ≤ longitude ∧ longitude ≤ 77.10 then 13300.0
  -- West Delhi
  else if 28.55 ≤ latitude ∧ latitude ≤ 28.65 ∧ 77.00 ≤ longitude ∧ longitude ≤ 77.15 then 10500.0
  -- North Delhi
  else if 28.65 ≤ latitude ∧ latitude ≤ 28.72 ∧ 77.10 ≤ longitude ∧ longitude ≤ 77.25 then 11200.0
  -- Noida Sectors 62-78, Expressway
  else if 28.55 ≤ latitude ∧ latitude ≤ 28.62 ∧ 77.35 ≤ longitude ∧ longitude ≤ 77.40 then 11900.0
  -- Noida General Sectors
  else if 28.50 ≤ latitude ∧ latitude ≤ 28.62 ∧ 77.30 ≤ longitude ∧ longitude ≤ 77.40 then 9100.0
  -- Greater Noida West
  else if 28.45 ≤ latitude ∧ latitude ≤ 28.55 ∧ 77.40 ≤ longitude ∧ longitude ≤ 77.50 then 6300.0
  -- Greater Noida
  else if 28.45 ≤ latitude ∧ latitude ≤ 28.62 ∧ 77.45 ≤ longitude ∧ longitude ≤ 77.55 then 7700.0
  -- Ghaziabad
  else if 28.62 ≤ latitude ∧ latitude ≤ 28.70 ∧ 77.35 ≤ longitude ∧ longitude ≤ 77.45 then 8400.0
  -- Faridabad
  else if 28.35 ≤ latitude ∧ latitude ≤ 28.45 ∧ 77.25 ≤ longitude ∧ longitude ≤ 77.35 then 7700.0
  -- Default for other areas
  else 8400.0

/-- Property-type multiplier (`if type_of_building:` block).  Python's
truthiness test on a string is the nonempty test. -/
def buildingMultiplier (type_of_building : String) : ℚ :=
  if type_of_building = "" then 1
  else
    let u := type_of_building.toUpper
    if pyIn "VILLA" u || pyIn "BUNGALOW" u then 1.35
    else if pyIn "PENTHOUSE" u then 1.50
    else if pyIn "DUPLEX" u then 1.20
    else if pyIn "STUDIO" u then 0.85
    else 1

/-- Furnished-status multiplier (`if furnished_status:` block). -/
def furnishedMultiplier (furnished_status : String) : ℚ :=
  if furnished_status = "" then 1
  else
    let u := furnished_status.toUpper
    if pyIn "FURNISHED" u && !(pyIn "SEMI" u) && !(pyIn "UN" u) then 1.15
    else if pyIn "SEMI" u then 1.08
    else 1

/-- Property age multiplier (`if neworold:` block). -/
def ageMultiplier (neworold : String) : ℚ :=
  if neworold = "" then 1
  else
    let u := neworold.toUpper
    if pyIn "NEW" u || pyIn "UNDER CONSTRUCTION" u then 1.12 else 1

/-- Construction-readiness multiplier (`if status:` block). -/
def statusMultiplier (status : String) : ℚ :=
  if status = "" then 1
  else
    let u := status.toUpper
    if pyIn "READY" u && pyIn "MOVE" u then 1.05 else 1

/-- Parking multiplier: Python's `if parking and parking > 0` first tests the
float for truthiness (nonzero) and then for positivity. -/
def parkingMultiplier (parking : ℚ) : ℚ :=
  if parking ≠ 0 ∧ 0 < parking then
    (if 2 ≤ parking then 1.10 else 1.05)
  else 1

/-- Lift multiplier (`if lift and lift > 0`). -/
def liftMultiplier (lift : ℚ) : ℚ :=
  if lift ≠ 0 ∧ 0 < lift then 1.08 else 1

/-- Balcony multiplier (`if balcony and balcony >= 2: ... elif balcony and balcony > 0`). -/
def balconyMultiplier (balcony : ℚ) : ℚ :=
  if balcony ≠ 0 ∧ 2 ≤ balcony then 1.06
  else if balcony ≠ 0 ∧ 0 < balcony then 1.03
  else 1

/-- Bedroom-count multiplier. -/
def bedroomMultiplier (bedrooms : ℚ) : ℚ :=
  if 4 ≤ bedrooms then 1.12
  else if 3 ≤ bedrooms then 1.05
  else 1

/-- Bathroom-count multiplier. -/
def bathroomMultiplier (bathrooms : ℚ) : ℚ :=
  if 3 ≤ bathrooms then 1.05 else 1

/-- The full multiplier stack, accumulated by `price_multiplier *= ...` in
source order: building type, furnishing, age, readiness, parking, lift,
balcony, bedrooms, bathrooms. -/
def priceMultiplier (bedrooms bathrooms balcony parking lift : ℚ)
    (status neworold furnished_status type_of_building : String) : ℚ :=
  buildingMultiplier type_of_building *
  furnishedMultiplier furnished_status *
  ageMultiplier neworold *
  statusMultiplier status *
  parkingMultiplier parking *
  liftMultiplier lift *
  balconyMultiplier balcony *
  bedroomMultiplier bedrooms *
  bathroomMultiplier bathrooms

/-- Heuristic `price_sqft` computed when the caller omits it:
`max(4000.0, min(35000.0, base_price * price_multiplier))`. -/
def heuristicPriceSqft (latitude longitude bedrooms bathrooms balcony parking lift : ℚ)
    (status neworold furnished_status type_of_building : String) : ℚ :=
  max 4000.0 (min 35000.0
    (basePrice latitude longitude *
      priceMultiplier bedrooms bathrooms balcony parking lift
        status neworold furnished_status type_of_building))

/-! ## The bounding-box chain as an ordered first-match table

The spec describes the if/elif chain as an ordered list of
(bounding-box, base-rate) pairs evaluated first-match-wins with a flat
default outside every box. -/

/-- A closed geographic bounding box on latitude and longitude. -/
structure Box where
  latLo : ℚ
  latHi : ℚ
  lonLo : ℚ
  lonHi : ℚ

/-- Containment of a point in a bounding box (all bounds inclusive, exactly
as the chained comparisons in the source). -/
def inBox (b : Box) (latitude longitude : ℚ) : Prop :=
  b.latLo ≤ latitude ∧ latitude ≤ b.latHi ∧ b.lonLo ≤ longitude ∧ longitude ≤ b.lonHi

instance (b : Box) (latitude longitude : ℚ) : Decidable (inBox b latitude longitude) := by
  unfold inBox; infer_instance

/-- The declared boxes with their base rates, in source declaration order. -/
def regionTable : List (Box × ℚ) :=
  [ (⟨28.50, 28.60, 77.15, 77.30⟩, 16800.0),   -- South Delhi
    (⟨28.60, 28.68, 77.18, 77.25⟩, 21000.0),   -- Central Delhi
    (⟨28.40, 28.50, 77.05, 77.15⟩, 15400.0),   -- Gurgaon Golf Course Road
    (⟨28.35, 28.45, 76.95, 77.10⟩, 13300.0),   -- Gurgaon Cyber City
    (⟨28.55, 28.65, 77.00, 77.15⟩, 10500.0),   -- West Delhi
    (⟨28.65, 28.72, 77.10, 77.25⟩, 11200.0),   -- North Delhi
    (⟨28.55, 28.62, 77.35, 77.40⟩, 11900.0),   -- Premium Noida
    (⟨28.50, 28.62, 77.30, 77.40⟩, 9100.0),    -- Noida General
    (⟨28.45, 28.55, 77.40, 77.50⟩, 6300.0),    -- Greater Noida West
    (⟨28.45, 28.62, 77.45, 77.55⟩, 7700.0),    -- Greater Noida
    (⟨28.62, 28.70, 77.35, 77.45⟩, 8400.0),    -- Ghaziabad
    (⟨28.35, 28.45, 77.25, 77.35⟩, 7700.0) ]   -- Faridabad

/-- First-match-wins evaluation of an ordered (box, rate) table, defaulting
to the flat rate 8400 outside every box. -/
def firstMatchRate (latitude longitude : ℚ) : List (Box × ℚ) → ℚ
  | [] => 8400.0
  | (b, r) :: rest =>
      if inBox b latitude longitude then r else firstMatchRate latitude longitude rest

/-! ## The single-prediction feature row (`predict.py`, `predict_single`)

`predict_single` resolves optional arguments to the documented defaults,
fabricates `Price_sqft` when it was not supplied, and assembles the
`input_dict` feature row handed to the model. -/

/-- The caller-visible arguments of `predict_single`; `Option` marks the
parameters whose Python default is `None`. -/
structure SingleInput where
  area : ℚ
  latitude : ℚ
  longitude : ℚ
  bedrooms : ℚ
  bathrooms : ℚ
  balcony : Option ℚ
  status : Option String
  neworold : Option String
  parking : Option ℚ
  furnished_status : Option String
  lift : Option ℚ
  type_of_building : Option String
  price_sqft : Option ℚ

/-- The `input_dict` feature row that `predict_single` builds and passes to
the model. -/
structure InputRow where
  area : ℚ
  latitude : ℚ
  longitude : ℚ
  Bedrooms : ℚ
  Bathrooms : ℚ
  Balcony : ℚ
  Status : String
  neworold : String
  parking : ℚ
  Furnished_status : String
  Lift : ℚ
  type_of_building : String
  Price_sqft : ℚ
  total_rooms : ℚ
  bed_bath_ratio : ℚ
  has_parking : ℚ
  has_lift : ℚ
  has_balcony : ℚ

/-- The body of `predict_single` up to the model call: default resolution,
the heuristic `Price_sqft` fallback, and the `input_dict` assembly
(predict.py lines 105-257). -/
def predict_single_row (inp : SingleInput) : InputRow :=
  let balcony := inp.balcony.getD 0.0
  let parking := inp.parking.getD 0.0
  let lift := inp.lift.getD 0.0
  let status := inp.status.getD "Unknown"
  let neworold := inp.neworold.getD "Unknown"
  let furnished_status := inp.furnished_status.getD "Unknown"
  let type_of_building := inp.type_of_building.getD "Flat"
  let price_sqft :=
    match inp.price_sqft with
    | some v => v
    | none =>
        heuristicPriceSqft inp.latitude inp.longitude inp.bedrooms inp.bathrooms
          balcony parking lift status neworold furnished_status type_of_building
  { area := inp.area
    latitude := inp.latitude
    longitude := inp.longitude
    Bedrooms := inp.bedrooms
    Bathrooms := inp.bathrooms
    Balcony := balcony
    Status := status
    neworold := neworold
    parking := parking
    Furnished_status := furnished_status
    Lift := lift
    type_of_building := type_of_building
    Price_sqft := price_sqft
    total_rooms := inp.bedrooms + inp.bathrooms
    bed_bath_ratio := inp.bedrooms / (inp.bathrooms + 1)
    has_parking := if 0 < parking then 1 else 0
    has_lift := if 0 < lift then 1 else 0
    has_balcony := if 0 < balcony then 1 else 0 }

/-- Denominator of the `bed_bath_ratio` feature, `bathrooms + 1`, shared by
`predict_single` (predict.py line 253) and `engineer_features`
(data_preprocessing.py line 147). -/
def bedBathDenominator (bathrooms : ℚ) : ℚ :=
  bathrooms + 1

/-! ## Data cleaning (`data_preprocessing.py`, `clean_data`)

The cleaning stage is modelled on the two columns it reads numerically:
the target column `price` and `area`.  A missing cell is `none` (pandas
NaN); a missing column is tracked by the `hasTarget`/`hasArea` flags.  The
dropped text columns (`Unnamed: 0`, `desc`, `Address`, `Landmarks`) carry
no price/area data and do not affect the modelled columns. -/

/-- One record's price and area cells.  `none` is a missing value. -/
structure CRow where
  price : Option ℚ
  area : Option ℚ
deriving DecidableEq

/-- The cleaned-stage view of the DataFrame: which of the two modelled
columns exist, and the rows. -/
structure CTable where
  hasTarget : Bool
  hasArea : Bool
  rows : List CRow
deriving DecidableEq

/-- Errors that `clean_data` can raise. -/
inductive CleanError where
  | keyError (column : String)
deriving DecidableEq

/-- The pandas `Series.quantile(q)` with the default linear interpolation:
sort the non-missing values, take position `q * (n - 1)`, and interpolate
linearly between the neighbouring order statistics. -/
def quantile (l : List ℚ) (q : ℚ) : ℚ :=
  let s := l.insertionSort (· ≤ ·)
  if s.isEmpty then 0
  else
    let n := s.length
    let pos := q * ((n : ℚ) - 1)
    let i := (⌊pos⌋).toNat
    let frac := pos - (i : ℚ)
    let lo := s.getD i 0
    let hi := s.getD (i + 1) lo
    lo + frac * (hi - lo)

/-- Dropping the rows whose target (`price`) value is missing
(`self.df[self.df[self.target_column].notna()]`). -/
def dropMissingTarget (rows : List CRow) : List CRow :=
  rows.filter fun r => r.price.isSome

/-- The non-missing values of the `price` column. -/
def priceValues (rows : List CRow) : List ℚ :=
  rows.filterMap fun r => r.price

/-- The non-missing values of the `area` column. -/
def areaValues (rows : List CRow) : List ℚ :=
  rows.filterMap fun r => r.area

/-- Keeping the rows whose price lies between the 1st and 99th percentile of
the price distribution of the incoming rows.  A pandas comparison against a
missing value is false, so a row with missing price is dropped. -/
def priceTrim (rows : List CRow) : List CRow :=
  let lower_bound := quantile (priceValues rows) (1/100)
  let upper_bound := quantile (priceValues rows) (99/100)
  rows.filter fun r =>
    match r.price with
    | some p => decide (lower_bound ≤ p ∧ p ≤ upper_bound)
    | none => false

/-- Keeping the rows whose area lies between the 1st and 99th percentile of
the area distribution of the incoming rows; skipped entirely when the
table has no `area` column. -/
def areaTrim (hasArea : Bool) (rows : List CRow) : List CRow :=
  if hasArea then
    let lower_area := quantile (areaValues rows) (1/100)
    let upper_area := quantile (areaValues rows) (99/100)
    rows.filter fun r =>
      match r.area with
      | some a => decide (lower_area ≤ a ∧ a ≤ upper_area)
      | none => false
  else rows

/-- The `clean_data` method (data_preprocessing.py lines 75-124).  The
missing-target drop is guarded by `if self.target_column in self.df.columns`,
but the subsequent `self.df[self.target_column].quantile(0.01)` is not: when
the target column is absent, that indexing raises a pandas `KeyError` and
the method never returns. -/
def clean_data (t : CTable) : Except CleanError CTable :=
  if t.hasTarget then
    let rows1 := dropMissingTarget t.rows
    let rows2 := priceTrim rows1
    let rows3 := areaTrim t.hasArea rows2
    .ok { t with rows := rows3 }
  else
    .error (.keyError "price")

/-! ## Feature engineering (`data_preprocessing.py`, `engineer_features`)

The method reads the columns `area`, `price`, `Price_sqft`, `Bedrooms`,
`Bathrooms`, `parking`, `Lift`, `Balcony` and writes the columns
`Price_sqft`, `total_rooms`, `bed_bath_ratio`, `has_parking`, `has_lift`,
`has_balcony`.  The table is modelled by exactly those columns, each
`none` when absent from the DataFrame; every other column is untouched by
the method. -/

/-- The columns of the cleaned table that `engineer_features` reads or
writes.  `none` marks a column absent from the DataFrame. -/
structure EngTable where
  area : Option (List ℚ)
  price : Option (List ℚ)
  Price_sqft : Option (List ℚ)
  Bedrooms : Option (List ℚ)
  Bathrooms : Option (List ℚ)
  parking : Option (List ℚ)
  Lift : Option (List ℚ)
  Balcony : Option (List ℚ)
  total_rooms : Option (List ℚ)
  bed_bath_ratio : Option (List ℚ)
  has_parking : Option (List ℚ)
  has_lift : Option (List ℚ)
  has_balcony : Option (List ℚ)
deriving DecidableEq

/-- Statement 1 of `engineer_features`: `if 'area' in ... and 'price' in ...:
if 'Price_sqft' not in ...: self.df['Price_sqft'] = self.df['price'] / self.df['area']`. -/
def addPriceSqft (t : EngTable) : EngTable :=
  match t.area, t.price, t.Price_sqft with
  | some a, some p, none => { t with Price_sqft := some (List.zipWith (fun pr ar => pr / ar) p a) }
  | _, _, _ => t

/-- Statement 2: `self.df['total_rooms'] = self.df['Bedrooms'] + self.df['Bathrooms']`. -/
def addTotalRooms (t : EngTable) : EngTable :=
  match t.Bedrooms, t.Bathrooms with
  | some bd, some ba => { t with total_rooms := some (List.zipWith (· + ·) bd ba) }
  | _, _ => t

/-- Statement 3: `self.df['bed_bath_ratio'] = self.df['Bedrooms'] / (self.df['Bathrooms'] + 1)`. -/
def addBedBathRatio (t : EngTable) : EngTable :=
  match t.Bedrooms, t.Bathrooms with
  | some bd, some ba => { t with bed_bath_ratio := some (List.zipWith (fun b c => b / (c + 1)) bd ba) }
  | _, _ => t

/-- Statement 4: `self.df['has_parking'] = (self.df['parking'] > 0).astype(int)`. -/
def addHasParking (t : EngTable) : EngTable :=
  match t.parking with
  | some pk => { t with has_parking := some (pk.map fun x => if 0 < x then 1 else 0) }
  | none => t

/-- Statement 5: `self.df['has_lift'] = (self.df['Lift'] > 0).astype(int)`. -/
def addHasLift (t : EngTable) : EngTable :=
  match t.Lift with
  | some lf => { t with has_lift := some (lf.map fun x => if 0 < x then 1 else 0) }
  | none => t

/-- Statement 6: `self.df['has_balcony'] = (self.df['Balcony'] > 0).astype(int)`. -/
def addHasBalcony (t : EngTable) : EngTable :=
  match t.Balcony with
  | some bc => { t with has_balcony := some (bc.map fun x => if 0 < x then 1 else 0) }
  | none => t

/-- The `engineer_features` method (data_preprocessing.py lines 126-162):
its six column-writing statements applied to the dataframe in source
order — `Price_sqft` is only added when absent, then `total_rooms`,
`bed_bath_ratio` and the three binary amenity flags are (re)computed
whenever their source columns exist. -/
def engineer_features (t : EngTable) : EngTable :=
  addHasBalcony (addHasLift (addHasParking (addBedBathRatio (addTotalRooms (addPriceSqft t)))))

/-! ## Model loading (`utils.py`, `load_model`)

`load_model` checks only that the file exists; it performs no validity
check on the loaded object.  The filesystem is a map from paths to the
artifact stored there, and an artifact records whether the deserialized
object exposes the `predict` capability. -/

/-- A deserialized model bundle; `hasPredict` records whether the object
exposes the predict capability the predictor needs. -/
structure Artifact where
  hasPredict : Bool
deriving DecidableEq

/-- The errors a model-load can signal. -/
inductive LoadError where
  | fileNotFound
  | artifactInvalid
deriving DecidableEq

/-- The `load_model` function (utils.py lines 173-191): raise
`FileNotFoundError` when the path does not exist, otherwise return whatever
`joblib.load` yields — with no validation of the loaded object. -/
def load_model (fs : String → Option Artifact) (filepath : String) : Except LoadError Artifact :=
  match fs filepath with
  | none => .error .fileNotFound
  | some m => .ok m

/-! ## Price formatting (`predict.py`, `format_price`) -/

/-- Rounding to whole hundredths (cents) with ties to even, the rounding of
Python's fixed-point float formatting. -/
def roundCents (q : ℚ) : ℤ :=
  if q * 100 - (⌊q * 100⌋ : ℚ) < 1/2 then ⌊q * 100⌋
  else if 1/2 < q * 100 - (⌊q * 100⌋ : ℚ) then ⌊q * 100⌋ + 1
  else if ⌊q * 100⌋ % 2 = 0 then ⌊q * 100⌋ else ⌊q * 100⌋ + 1

/-- Two decimal digits, zero padded. -/
def twoDigits (n : ℕ) : String :=
  if n < 10 then "0" ++ toString n else toString n

/-- Python's `f"{x:.2f}"`: two decimals, no grouping. -/
def formatFixed2 (q : ℚ) : String :=
  (if roundCents q < 0 then "-" else "") ++ toString ((roundCents q).natAbs / 100) ++ "." ++
    twoDigits ((roundCents q).natAbs % 100)

/-- Inserting thousands separators into a reversed digit list. -/
def groupRev : List Char → List Char
  | a :: b :: c :: rest =>
      if rest.isEmpty then a :: b :: c :: rest else a :: b :: c :: ',' :: groupRev rest
  | l => l

/-- Python's `f"{x:,.2f}"`: two decimals with comma-grouped integer part. -/
def formatGrouped2 (q : ℚ) : String :=
  (if roundCents q < 0 then "-" else "") ++
    String.mk (groupRev (toString ((roundCents q).natAbs / 100)).toList.reverse).reverse ++ "." ++
    twoDigits ((roundCents q).natAbs % 100)

/-- The `format_price` function (predict.py lines 315-333). -/
def format_price (price : ℚ) : String :=
  if price ≥ 10000000 then "₹" ++ formatFixed2 (price / 10000000) ++ " Crore"
  else if price ≥ 100000 then "₹" ++ formatFixed2 (price / 100000) ++ " Lakh"
  else "₹" ++ formatGrouped2 price

/-- A filesystem whose every path holds a bundle that deserializes but lacks
the predict capability. -/
def invalidBundleFS : String → Option Artifact :=
  fun _ => some { hasPredict := false }

end HousePrice

namespace HousePrice

/-- C8: format_price maps every price ≥ 10,000,000 to the value divided by
1e7 rendered with 2 decimals in Crore units, every price in
[100,000, 10,000,000) to the value divided by 1e5 with 2 decimals in Lakh
units, and every smaller price to a plain grouped decimal; in particular
format_price 12345678 = "₹1.23 Crore", format_price 523400 = "₹5.23 Lakh",
and format_price 4500 = "₹4,500.00". -/
theorem format_price_spec :
    (∀ price : ℚ, 10000000 ≤ price →
        format_price price = "₹" ++ formatFixed2 (price / 10000000) ++ " Crore") ∧
    (∀ price : ℚ, 100000 ≤ price → price < 10000000 →
        format_price price = "₹" ++ formatFixed2 (price / 100000) ++ " Lakh") ∧
    (∀ price : ℚ, price < 100000 →
        format_price price = "₹" ++ formatGrouped2 price) ∧
    format_price 12345678 = "₹1.23 Crore" ∧
    format_price 523400 = "₹5.23 Lakh" ∧
    format_price 4500 = "₹4,500.00" := by
  refine ⟨?_, ?_, ?_, ?_, ?_, ?_⟩
  · intro price h
    unfold format_price
    rw [if_pos h]
  · intro price h1 h2
    unfold format_price
    rw [if_neg (not_le.mpr h2), if_pos h1]
  · intro price h
    unfold format_price
    rw [if_neg (not_le.mpr (h.trans (by norm_num))), if_neg (not_le.mpr h)]
  · have h : roundCents ((12345678 : ℚ) / 10000000) = 123 := by norm_num [roundCents]
    unfold format_price
    rw [if_pos (by norm_num : (12345678 : ℚ) ≥ 10000000)]
    simp only [formatFixed2, h]
    rfl
  · have h : roundCents ((523400 : ℚ) / 100000) = 523 := by norm_num [roundCents]
    unfold format_price
    rw [if_neg (by norm_num : ¬((523400 : ℚ) ≥ 10000000)),
      if_pos (by norm_num : (523400 : ℚ) ≥ 100000)]
    simp only [formatFixed2, h]
    rfl
  · have h : roundCents (4500 : ℚ) = 450000 := by norm_num [roundCents]
    unfold format_price
    rw [if_neg (by norm_num : ¬((4500 : ℚ) ≥ 10000000)),
      if_neg (by norm_num : ¬((4500 : ℚ) ≥ 100000))]
    simp only [formatGrouped2, h]
    rfl

/-- Witness for format_price_spec: each guarded branch applied at a concrete
price. -/
theorem format_price_spec_witness :
    format_price 20000000 = "₹" ++ formatFixed2 ((20000000 : ℚ) / 10000000) ++ " Crore" ∧
    format_price 523400 = "₹" ++ formatFixed2 ((523400 : ℚ) / 100000) ++ " Lakh" ∧
    format_price 4500 = "₹" ++ formatGrouped2 4500 :=
  ⟨format_price_spec.1 20000000 (by norm_num),
   format_price_spec.2.1 523400 (by norm_num) (by norm_num),
   format_price_spec.2.2.1 4500 (by norm_num)⟩

/-- C2 counterexample: a bundle that deserializes but lacks the predict
capability is returned by load_model as a success — no artifact-invalid
error (and no error at all) is signaled at load time. -/
theorem load_model_accepts_invalid_bundle :
    load_model invalidBundleFS "house_price_model.pkl" = Except.ok { hasPredict := false } ∧
    Artifact.hasPredict { hasPredict := false } = false :=
  ⟨rfl, rfl⟩

/-- C2 amended: load_model raises a file-not-found error exactly when the
bundle path does not exist; when the file exists, the deserialized object is
returned unconditionally, with no validity check distinguishing a malformed
bundle. -/
theorem load_model_amended (fs : String → Option Artifact) (filepath : String) :
    (fs filepath = none → load_model fs filepath = Except.error LoadError.fileNotFound) ∧
    (∀ m : Artifact, fs filepath = some m → load_model fs filepath = Except.ok m) := by
  constructor
  · intro h
    unfold load_model
    rw [h]
  · intro m h
    unfold load_model
    rw [h]

/-- Witness for load_model_amended: both branches at concrete filesystems. -/
theorem load_model_amended_witness :
    load_model (fun _ => none) "house_price_model.pkl" = Except.error LoadError.fileNotFound ∧
    load_model (fun _ => some { hasPredict := true }) "house_price_model.pkl" =
      Except.ok { hasPredict := true } :=
  ⟨(load_model_amended (fun _ => none) "house_price_model.pkl").1 rfl,
   (load_model_amended (fun _ => some { hasPredict := true }) "house_price_model.pkl").2 _ rfl⟩

/-- C7: when the target column is absent, clean_data raises the KeyError
coming from the unguarded quantile lookup and never returns a table. -/
theorem clean_data_missing_target (t : CTable) (h : t.hasTarget = false) :
    clean_data t = Except.error (CleanError.keyError "price") ∧
    ∀ t' : CTable, clean_data t ≠ Except.ok t' := by
  have he : clean_data t = Except.error (CleanError.keyError "price") := by
    unfold clean_data
    rw [h]
    simp
  exact ⟨he, fun t' hok => by rw [he] at hok; exact Except.noConfusion hok⟩

/-- Witness for clean_data_missing_target at a concrete table lacking the
target column. -/
theorem clean_data_missing_target_witness :
    clean_data { hasTarget := false, hasArea := true,
                 rows := [{ price := some 100, area := some 50 }] } =
      Except.error (CleanError.keyError "price") ∧
    clean_data { hasTarget := false, hasArea := true,
                 rows := [{ price := some 100, area := some 50 }] } ≠
      Except.ok { hasTarget := false, hasArea := true, rows := [] } :=
  ⟨(clean_data_missing_target _ rfl).1, (clean_data_missing_target _ rfl).2 _⟩

/-- C10: when the caller supplies price_sqft, the heuristic is skipped and
the supplied value lands in the Price_sqft feature unchanged — no clamp is
applied to caller-supplied values. -/
theorem predict_single_price_sqft_verbatim (inp : SingleInput) (v : ℚ)
    (h : inp.price_sqft = some v) :
    (predict_single_row inp).Price_sqft = v := by
  rcases inp with ⟨a, la, lo, bd, ba, bc, st, no, pk, fs, lf, tb, ps⟩
  cases h
  rfl

/-- Witness for predict_single_price_sqft_verbatim: a caller-supplied value
far above the 35000 clamp ceiling reaches the feature row verbatim. -/
theorem predict_single_price_sqft_verbatim_witness :
    (predict_single_row
      { area := 1000, latitude := 28.6, longitude := 77.2, bedrooms := 2, bathrooms := 2,
        balcony := none, status := none, neworold := none, parking := none,
        furnished_status := none, lift := none, type_of_building := none,
        price_sqft := some 100000 }).Price_sqft = 100000 :=
  predict_single_price_sqft_verbatim _ _ rfl

/-- C9 counterexample: at the numeric bathroom value -1, which
predict_single accepts, the bed_bath_ratio denominator bathrooms + 1 is
zero — the claimed never-zero denominator fails. -/
theorem bedBathDenominator_zero_at_neg_one :
    bedBathDenominator (-1) = 0 := by
  norm_num [bedBathDenominator]

/-- C9 amended: bed_bath_ratio equals bedrooms divided by (bathrooms + 1),
and for every nonnegative bathroom value the denominator is nonzero. -/
theorem bed_bath_ratio_denominator (inp : SingleInput) (h : 0 ≤ inp.bathrooms) :
    InputRow.bed_bath_ratio (predict_single_row inp) =
      inp.bedrooms / bedBathDenominator inp.bathrooms ∧
    bedBathDenominator inp.bathrooms ≠ 0 := by
  refine ⟨rfl, ?_⟩
  unfold bedBathDenominator
  intro hc
  nlinarith [hc, h]

/-- Witness for bed_bath_ratio_denominator at a concrete request. -/
theorem bed_bath_ratio_denominator_witness :
    InputRow.bed_bath_ratio (predict_single_row
      { area := 1200, latitude := 28.55, longitude := 77.2, bedrooms := 3, bathrooms := 2,
        balcony := none, status := none, neworold := none, parking := none,
        furnished_status := none, lift := none, type_of_building := none,
        price_sqft := some 9000 }) = 3 / bedBathDenominator 2 ∧
    bedBathDenominator 2 ≠ 0 :=
  bed_bath_ratio_denominator
    { area := 1200, latitude := 28.55, longitude := 77.2, bedrooms := 3, bathrooms := 2,
      balcony := none, status := none, neworold := none, parking := none,
      furnished_status := none, lift := none, type_of_building := none,
      price_sqft := some 9000 } (by norm_num)

/-- Positivity descends through both branches of an if. -/
lemma ite_pos {c : Prop} [Decidable c] {a b : ℚ} (ha : 0 < a) (hb : 0 < b) :
    0 < if c then a else b := by
  by_cases h : c
  · rwa [if_pos h]
  · rwa [if_neg h]

/-- The base rate of the bounding-box chain is always positive. -/
lemma basePrice_pos (latitude longitude : ℚ) : 0 < basePrice latitude longitude := by
  unfold basePrice
  repeat' apply ite_pos
  all_goals norm_num

/-- The building-type multiplier is always positive. -/
lemma buildingMultiplier_pos (s : String) : 0 < buildingMultiplier s := by
  unfold buildingMultiplier
  repeat' apply ite_pos
  all_goals norm_num

/-- The furnished-status multiplier is always positive. -/
lemma furnishedMultiplier_pos (s : String) : 0 < furnishedMultiplier s := by
  unfold furnishedMultiplier
  repeat' apply ite_pos
  all_goals norm_num

/-- The property-age multiplier is always positive. -/
lemma ageMultiplier_pos (s : String) : 0 < ageMultiplier s := by
  unfold ageMultiplier
  repeat' apply ite_pos
  all_goals norm_num

/-- The readiness multiplier is always positive. -/
lemma statusMultiplier_pos (s : String) : 0 < statusMultiplier s := by
  unfold statusMultiplier
  repeat' apply ite_pos
  all_goals norm_num

/-- The parking multiplier is always positive. -/
lemma parkingMultiplier_pos (q : ℚ) : 0 < parkingMultiplier q := by
  unfold parkingMultiplier
  repeat' apply ite_pos
  all_goals norm_num

/-- The lift multiplier is always positive. -/
lemma liftMultiplier_pos (q : ℚ) : 0 < liftMultiplier q := by
  unfold liftMultiplier
  repeat' apply ite_pos
  all_goals norm_num

/-- The balcony multiplier is always positive. -/
lemma balconyMultiplier_pos (q : ℚ) : 0 < balconyMultiplier q := by
  unfold balconyMultiplier
  repeat' apply ite_pos
  all_goals norm_num

/-- The bedroom multiplier is always positive. -/
lemma bedroomMultiplier_pos (q : ℚ) : 0 < bedroomMultiplier q := by
  unfold bedroomMultiplier
  repeat' apply ite_pos
  all_goals norm_num

/-- The bathroom multiplier is always positive. -/
lemma bathroomMultiplier_pos (q : ℚ) : 0 < bathroomMultiplier q := by
  unfold bathroomMultiplier
  repeat' apply ite_pos
  all_goals norm_num

/-- The final clamp `max 4000 (min 35000 x)` is monotone in `x`. -/
lemma clamp_mono {x y : ℚ} (h : x ≤ y) :
    max 4000.0 (min 35000.0 x) ≤ max 4000.0 (min 35000.0 y) :=
  max_le_max le_rfl (min_le_min le_rfl h)

/-- The heuristic rate is monotone in the parking multiplier, all other
arguments held fixed. -/
lemma heuristicPriceSqft_mono_parking
    (latitude longitude bedrooms bathrooms balcony lift p p' : ℚ)
    (status neworold furnished_status type_of_building : String)
    (hpm : parkingMultiplier p ≤ parkingMultiplier p') :
    heuristicPriceSqft latitude longitude bedrooms bathrooms balcony p lift
        status neworold furnished_status type_of_building ≤
      heuristicPriceSqft latitude longitude bedrooms bathrooms balcony p' lift
        status neworold furnished_status type_of_building := by
  unfold heuristicPriceSqft
  apply clamp_mono
  unfold priceMultiplier
  have hsplit : ∀ pm : ℚ,
      basePrice latitude longitude *
        (buildingMultiplier type_of_building * furnishedMultiplier furnished_status *
          ageMultiplier neworold * statusMultiplier status * pm * liftMultiplier lift *
          balconyMultiplier balcony * bedroomMultiplier bedrooms * bathroomMultiplier bathrooms) =
      basePrice latitude longitude * buildingMultiplier type_of_building *
          furnishedMultiplier furnished_status * ageMultiplier neworold * statusMultiplier status *
          liftMultiplier lift * balconyMultiplier balcony * bedroomMultiplier bedrooms *
          bathroomMultiplier bathrooms * pm := by
    intro pm
    ring
  rw [hsplit, hsplit]
  apply mul_le_mul_of_nonneg_left hpm
  exact le_of_lt (mul_pos (mul_pos (mul_pos (mul_pos (mul_pos (mul_pos (mul_pos (mul_pos
    (basePrice_pos latitude longitude) (buildingMultiplier_pos type_of_building))
    (furnishedMultiplier_pos furnished_status)) (ageMultiplier_pos neworold))
    (statusMultiplier_pos status)) (liftMultiplier_pos lift))
    (balconyMultiplier_pos balcony)) (bedroomMultiplier_pos bedrooms))
    (bathroomMultiplier_pos bathrooms))

/-- First-match evaluation yields the default rate when the point lies in no
box of the table. -/
lemma firstMatchRate_outside (latitude longitude : ℚ) :
    ∀ table : List (Box × ℚ), (∀ br ∈ table, ¬ inBox br.1 latitude longitude) →
      firstMatchRate latitude longitude table = 8400.0 := by
  intro table
  induction table with
  | nil => intro _; rfl
  | cons head tail ih =>
      intro h
      obtain ⟨b, r⟩ := head
      unfold firstMatchRate
      rw [if_neg (h ⟨b, r⟩ (List.mem_cons_self _ _))]
      exact ih fun br hm => h br (List.mem_cons_of_mem _ hm)

/-- C1: with price_sqft omitted, the heuristic Price_sqft equals the clamp
of base rate times the multiplier stack and therefore always lies in the
band [4000, 35000]. -/
theorem heuristic_price_sqft_clamped (inp : SingleInput) (h : inp.price_sqft = none) :
    (predict_single_row inp).Price_sqft =
      max 4000.0 (min 35000.0
        (basePrice inp.latitude inp.longitude *
          priceMultiplier inp.bedrooms inp.bathrooms (inp.balcony.getD 0.0) (inp.parking.getD 0.0)
            (inp.lift.getD 0.0) (inp.status.getD "Unknown") (inp.neworold.getD "Unknown")
            (inp.furnished_status.getD "Unknown") (inp.type_of_building.getD "Flat"))) ∧
    4000.0 ≤ (predict_single_row inp).Price_sqft ∧
    (predict_single_row inp).Price_sqft ≤ 35000.0 := by
  rcases inp with ⟨a, la, lo, bd, ba, bc, st, no, pk, fs, lf, tb, ps⟩
  cases h
  exact ⟨rfl, le_max_left _ _, max_le (by norm_num) (min_le_left _ _)⟩

/-- Witness for heuristic_price_sqft_clamped at the spec's end-to-end
example input (price_sqft omitted). -/
theorem heuristic_price_sqft_clamped_witness :
    (predict_single_row
      { area := 1500, latitude := 28.60885, longitude := 77.46056, bedrooms := 3, bathrooms := 3,
        balcony := some 2, status := some "Ready to Move", neworold := some "New Property",
        parking := some 2, furnished_status := some "Furnished", lift := some 3,
        type_of_building := some "Flat", price_sqft := none }).Price_sqft =
      max 4000.0 (min 35000.0
        (basePrice 28.60885 77.46056 *
          priceMultiplier 3 3 ((some (2 : ℚ)).getD 0.0) ((some (2 : ℚ)).getD 0.0)
            ((some (3 : ℚ)).getD 0.0) ((some "Ready to Move").getD "Unknown")
            ((some "New Property").getD "Unknown") ((some "Furnished").getD "Unknown")
            ((some "Flat").getD "Flat"))) ∧
    4000.0 ≤ (predict_single_row
      { area := 1500, latitude := 28.60885, longitude := 77.46056, bedrooms := 3, bathrooms := 3,
        balcony := some 2, status := some "Ready to Move", neworold := some "New Property",
        parking := some 2, furnished_status := some "Furnished", lift := some 3,
        type_of_building := some "Flat", price_sqft := none }).Price_sqft ∧
    (predict_single_row
      { area := 1500, latitude := 28.60885, longitude := 77.46056, bedrooms := 3, bathrooms := 3,
        balcony := some 2, status := some "Ready to Move", neworold := some "New Property",
        parking := some 2, furnished_status := some "Furnished", lift := some 3,
        type_of_building := some "Flat", price_sqft := none }).Price_sqft ≤ 35000.0 :=
  heuristic_price_sqft_clamped
    { area := 1500, latitude := 28.60885, longitude := 77.46056, bedrooms := 3, bathrooms := 3,
      balcony := some 2, status := some "Ready to Move", neworold := some "New Property",
      parking := some 2, furnished_status := some "Furnished", lift := some 3,
      type_of_building := some "Flat", price_sqft := none } rfl

/-- C4: the if/elif location chain equals first-match-wins evaluation of the
ordered region table — for a point in several boxes the earliest-declared
box's rate is used — and every point outside all boxes gets the flat 8400
default. -/
theorem base_rate_first_match (latitude longitude : ℚ) :
    basePrice latitude longitude = firstMatchRate latitude longitude regionTable ∧
    ((∀ br ∈ regionTable, ¬ inBox br.1 latitude longitude) →
      basePrice latitude longitude = 8400.0) := by
  have hmain : basePrice latitude longitude = firstMatchRate latitude longitude regionTable :=
    rfl
  refine ⟨hmain, fun h => ?_⟩
  rw [hmain]
  exact firstMatchRate_outside latitude longitude regionTable h

/-- Witness for base_rate_first_match at the origin, which lies outside all
declared boxes. -/
theorem base_rate_first_match_witness :
    basePrice 0 0 = firstMatchRate 0 0 regionTable ∧ basePrice 0 0 = 8400.0 :=
  ⟨(base_rate_first_match 0 0).1,
   (base_rate_first_match 0 0).2 (by norm_num [regionTable, inBox])⟩

/-- C5: with price_sqft omitted and all other inputs held fixed, raising the
parking count from 0 to 1 and from 1 to 2 never decreases the heuristic
Price_sqft produced by predict_single. -/
theorem predict_single_parking_monotone (inp : SingleInput) :
    (predict_single_row { inp with parking := some 0, price_sqft := none }).Price_sqft ≤
      (predict_single_row { inp with parking := some 1, price_sqft := none }).Price_sqft ∧
    (predict_single_row { inp with parking := some 1, price_sqft := none }).Price_sqft ≤
      (predict_single_row { inp with parking := some 2, price_sqft := none }).Price_sqft := by
  rcases inp with ⟨a, la, lo, bd, ba, bc, st, no, pk, fs, lf, tb, ps⟩
  constructor
  · exact heuristicPriceSqft_mono_parking la lo bd ba (bc.getD 0.0) (lf.getD 0.0) 0 1
      (st.getD "Unknown") (no.getD "Unknown") (fs.getD "Unknown") (tb.getD "Flat")
      (by norm_num [parkingMultiplier])
  · exact heuristicPriceSqft_mono_parking la lo bd ba (bc.getD 0.0) (lf.getD 0.0) 1 2
      (st.getD "Unknown") (no.getD "Unknown") (fs.getD "Unknown") (tb.getD "Flat")
      (by norm_num [parkingMultiplier])

/-- Every row retained by the price trim was present before, has a price,
and that price lies between the 1st and 99th percentile of the incoming
price distribution. -/
lemma priceTrim_sound {rows : List CRow} {r : CRow} (h : r ∈ priceTrim rows) :
    r ∈ rows ∧ r.price.isSome = true ∧
      quantile (priceValues rows) (1/100) ≤ r.price.getD 0 ∧
      r.price.getD 0 ≤ quantile (priceValues rows) (99/100) := by
  unfold priceTrim at h
  rw [List.mem_filter] at h
  obtain ⟨hmem, hcond⟩ := h
  cases hp : r.price with
  | none => simp [hp] at hcond
  | some p =>
      simp only [hp] at hcond
      have hb := of_decide_eq_true hcond
      exact ⟨hmem, rfl, by simpa using hb.1, by simpa using hb.2⟩

/-- Every row retained by the area trim (with the area column present) was
present before, has an area, and that area lies between the 1st and 99th
percentile of the incoming area distribution. -/
lemma areaTrim_sound {rows : List CRow} {r : CRow} (h : r ∈ areaTrim true rows) :
    r ∈ rows ∧ r.area.isSome = true ∧
      quantile (areaValues rows) (1/100) ≤ r.area.getD 0 ∧
      r.area.getD 0 ≤ quantile (areaValues rows) (99/100) := by
  unfold areaTrim at h
  rw [if_pos rfl] at h
  rw [List.mem_filter] at h
  obtain ⟨hmem, hcond⟩ := h
  cases hp : r.area with
  | none => simp [hp] at hcond
  | some aa =>
      simp only [hp] at hcond
      have hb := of_decide_eq_true hcond
      exact ⟨hmem, rfl, by simpa using hb.1, by simpa using hb.2⟩

/-- C3: every record retained by clean_data has a price within the
[1st, 99th] percentiles of the price distribution computed after the
missing-target drop but before any trimming, and (when the area column
exists) an area within the [1st, 99th] percentiles of the area distribution
computed on the rows that survived the price trim — the two boundary
computations are sequential, price first. -/
theorem clean_data_percentile_trim (t t' : CTable) (r : CRow)
    (hc : clean_data t = Except.ok t') (hr : r ∈ t'.rows) :
    (r.price.isSome = true ∧
      quantile (priceValues (dropMissingTarget t.rows)) (1/100) ≤ r.price.getD 0 ∧
      r.price.getD 0 ≤ quantile (priceValues (dropMissingTarget t.rows)) (99/100)) ∧
    (t.hasArea = true →
      (r.area.isSome = true ∧
        quantile (areaValues (priceTrim (dropMissingTarget t.rows))) (1/100) ≤ r.area.getD 0 ∧
        r.area.getD 0 ≤ quantile (areaValues (priceTrim (dropMissingTarget t.rows))) (99/100))) := by
  unfold clean_data at hc
  by_cases ht : t.hasTarget = true
  · rw [if_pos ht] at hc
    have heq := Except.ok.inj hc
    have hrows : t'.rows = areaTrim t.hasArea (priceTrim (dropMissingTarget t.rows)) := by
      rw [← heq]
    rw [hrows] at hr
    by_cases ha : t.hasArea = true
    · rw [ha] at hr
      obtain ⟨hmem2, hAreaSome, hal, hau⟩ := areaTrim_sound hr
      obtain ⟨hmem1, hPriceSome, hpl, hpu⟩ := priceTrim_sound hmem2
      exact ⟨⟨hPriceSome, hpl, hpu⟩, fun _ => ⟨hAreaSome, hal, hau⟩⟩
    · have ha' : t.hasArea = false := by simpa using ha
      rw [ha'] at hr
      have hr2 : r ∈ priceTrim (dropMissingTarget t.rows) := by
        simpa [areaTrim] using hr
      obtain ⟨hmem1, hPriceSome, hpl, hpu⟩ := priceTrim_sound hr2
      exact ⟨⟨hPriceSome, hpl, hpu⟩, fun hcontra => absurd hcontra (by simp [ha'])⟩
  · rw [if_neg ht] at hc
    exact Except.noConfusion hc

/-- A concrete four-row table for exercising clean_data: one missing-price
row and two outlier rows that the percentile trims remove. -/
def trimSampleTable : CTable :=
  ⟨true, true, [⟨some 0, some 11⟩, ⟨none, some 5⟩, ⟨some 100, some 50⟩, ⟨some 200, some 99⟩]⟩

/-- The row of trimSampleTable that survives both trims. -/
def trimSampleRow : CRow :=
  ⟨some 100, some 50⟩

/-- The cleaned table clean_data produces from trimSampleTable. -/
def trimSampleResult : CTable :=
  ⟨true, true, [⟨some 100, some 50⟩]⟩

/-- Witness for clean_data_percentile_trim on the concrete sample table. -/
theorem clean_data_percentile_trim_witness :
    (trimSampleRow.price.isSome = true ∧
      quantile (priceValues (dropMissingTarget trimSampleTable.rows)) (1/100) ≤
        trimSampleRow.price.getD 0 ∧
      trimSampleRow.price.getD 0 ≤
        quantile (priceValues (dropMissingTarget trimSampleTable.rows)) (99/100)) ∧
    (trimSampleTable.hasArea = true →
      (trimSampleRow.area.isSome = true ∧
        quantile (areaValues (priceTrim (dropMissingTarget trimSampleTable.rows))) (1/100) ≤
          trimSampleRow.area.getD 0 ∧
        trimSampleRow.area.getD 0 ≤
          quantile (areaValues (priceTrim (dropMissingTarget trimSampleTable.rows))) (99/100))) :=
  clean_data_percentile_trim trimSampleTable trimSampleResult trimSampleRow
    (by norm_num [clean_data, dropMissingTarget, priceTrim, areaTrim, priceValues, areaValues,
        quantile, List.insertionSort, List.orderedInsert, List.filter, List.filterMap,
        trimSampleTable, trimSampleResult])
    (by simp [trimSampleResult, trimSampleRow])

set_option maxHeartbeats 1000000 in
/-- C6: engineer_features is idempotent — applying it twice to any table
yields the same table as applying it once. -/
theorem engineer_features_idempotent (t : EngTable) :
    engineer_features (engineer_features t) = engineer_features t := by
  rcases t with ⟨a, p, ps, bd, ba, pk, lf, bc, tr, bbr, hp, hl, hb⟩
  cases a <;> cases p <;> cases ps <;> cases bd <;> cases ba <;> cases pk <;>
    cases lf <;> cases bc <;>
      simp only [engineer_features, addPriceSqft, addTotalRooms, addBedBathRatio,
        addHasParking, addHasLift, addHasBalcony]

end HousePrice
